import Mathlib

/-!
Verification development for the `IdeaPluginGen` console task
(`src/python/pants/backend/project_info/tasks/idea_plugin_gen.py`).

The task derives a project name from the positional target specifiers,
creates a working directory under `<buildroot>/.idea/IdeaPluginGen`,
assembles project/workspace template data, renders three files into
temporary files and then moves them to their final paths.

The embedding below translates the source faithfully:
pure string computations become Lean functions, the filesystem becomes an
explicit `FS` state record, and fallible steps return `Except`.
-/

set_option maxRecDepth 4096

/-- The character class `[0-9a-zA-Z:_]` of the regex in
`IdeaPluginGen.get_project_name` (`re.sub('[^0-9a-zA-Z:_]+', '.', ...)`). -/
def inClass (c : Char) : Bool :=
  ('0' ≤ c && c ≤ '9') || ('a' ≤ c && c ≤ 'z') || ('A' ≤ c && c ≤ 'Z') ||
    c == ':' || c == '_'

/-- Model of `re.sub('[^0-9a-zA-Z:_]+', '.', s)`: every maximal run of
characters outside the class is replaced by one `'.'`.  The Boolean flag
records whether the previous character was part of such a run. -/
def subBadRunsAux : Bool → List Char → List Char
  | _, [] => []
  | prevBad, c :: cs =>
    if inClass c then c :: subBadRunsAux false cs
    else if prevBad then subBadRunsAux prevBad cs
    else '.' :: subBadRunsAux true cs

/-- Model of Python `sep.join(xs)`. -/
def joinSep (sep : String) : List String → String
  | [] => ""
  | [s] => s
  | s :: rest => s ++ sep ++ joinSep sep rest

/-- `IdeaPluginGen.PROJECT_NAME_LIMIT` (line 53). -/
def PROJECT_NAME_LIMIT : Nat := 200

/-- The intermediate `escaped_name` of `get_project_name` (line 113):
`re.sub('[^0-9a-zA-Z:_]+', '.', '__'.join(target_specs))`. -/
def escaped_name (target_specs : List String) : String :=
  String.mk (subBadRunsAux false (joinSep "__" target_specs).data)

/-- Model of the Python slice `s[:n]` (by characters, as in Python). -/
def pythonSlice (s : String) (n : Nat) : String :=
  String.mk (s.data.take n)

/-- `IdeaPluginGen.get_project_name` (lines 111-115). -/
def get_project_name (target_specs : List String) : String :=
  pythonSlice (escaped_name target_specs) PROJECT_NAME_LIMIT

/-- Detects two adjacent `'.'` characters. -/
def hasDotDot : List Char → Bool
  | a :: b :: rest => (a == '.' && b == '.') || hasDotDot (b :: rest)
  | _ => false

/-- Does the string start with the character `c`?  (Model of Python
`s.startswith(c)` for a one-character `c`, used by `posixpath.join`.) -/
def startsWithChar (c : Char) (s : String) : Bool :=
  match s.data with
  | [] => false
  | d :: _ => d == c

/-- Does the string end with the character `c`? -/
def endsWithChar (c : Char) (s : String) : Bool :=
  match s.data.getLast? with
  | none => false
  | some d => d == c

/-- Model of POSIX `os.path.join(a, b)` for two components: an absolute
second component replaces the first; otherwise the parts are glued with a
single `/` (none added when `a` is empty or already ends in `/`). -/
def os_path_join (a b : String) : String :=
  if startsWithChar '/' b then b
  else if a = "" then b
  else if endsWithChar '/' a then a ++ b
  else a ++ "/" ++ b

/-- Model of Python `str.split(sep)` for a one-character separator, on
character lists.  Always returns a non-empty list of fields. -/
def splitOnChar (sep : Char) : List Char → List (List Char)
  | [] => [[]]
  | c :: cs =>
    if c == sep then [] :: splitOnChar sep cs
    else
      match splitOnChar sep cs with
      | [] => [[c]]
      | h :: t => (c :: h) :: t

/-- `s.split(sep)[0]` — the field before the first separator. -/
def py_split_first (sep : Char) (s : String) : String :=
  String.mk ((splitOnChar sep s.data).headD [])

/-- Hex digit (lowercase) used by the JSON encoder. -/
def hexDigitChar (n : Nat) : Char :=
  if n < 10 then Char.ofNat (48 + n) else Char.ofNat (87 + n)

/-- Four-digit lowercase hex rendering of `n`, as in JSON `\uXXXX`. -/
def hex4 (n : Nat) : List Char :=
  [hexDigitChar (n / 4096 % 16), hexDigitChar (n / 256 % 16),
   hexDigitChar (n / 16 % 16), hexDigitChar (n % 16)]

/-- Model of the escaping of one character by Python `json.dumps` with its
default `ensure_ascii=True`: `"` and `\` and everything outside the
printable ASCII range `0x20..0x7e` is escaped, control characters with
their short forms where they exist, astral code points as surrogate
pairs. -/
def jsonEscapeChar (c : Char) : List Char :=
  if c == '"' then ['\\', '"']
  else if c == '\\' then ['\\', '\\']
  else if c == '\n' then ['\\', 'n']
  else if c == '\t' then ['\\', 't']
  else if c == '\r' then ['\\', 'r']
  else if c.toNat == 8 then ['\\', 'b']
  else if c.toNat == 12 then ['\\', 'f']
  else if 32 ≤ c.toNat && c.toNat ≤ 126 then [c]
  else if c.toNat < 65536 then '\\' :: 'u' :: hex4 c.toNat
  else ('\\' :: 'u' :: hex4 (55296 + (c.toNat - 65536) / 1024)) ++
       ('\\' :: 'u' :: hex4 (56320 + (c.toNat - 65536) % 1024))

/-- Characterwise JSON escaping of a character list. -/
def json_escape_list : List Char → List Char
  | [] => []
  | c :: cs => jsonEscapeChar c ++ json_escape_list cs

/-- Model of `json.dumps` on a string value. -/
def json_dumps_str (s : String) : String :=
  String.mk ('"' :: (json_escape_list s.data ++ ['"']))

/-- Model of `json.dumps` on a list of strings: default separators are
`", "` between items. -/
def json_dumps_str_list (xs : List String) : String :=
  "[" ++ joinSep ", " (xs.map json_dumps_str) ++ "]"

/-- `IDEA_PLUGIN_VERSION` (line 26). -/
def IDEA_PLUGIN_VERSION : String := "0.0.3"

/-- The resolved option values the task reads (`register_options`,
lines 55-75), after CLI parsing. -/
structure Options where
  openOpt : Bool
  incremental_import : Option Int
  java_encoding : String
  open_with : Option String
  debug_port : Int
  java_jdk_name : Option String
  java_language_level : Int
deriving DecidableEq, Repr

/-- Classification of one resolved target root: `isinstance(x, JvmTarget)`
vs `isinstance(x, PythonTarget)` vs neither (lines 175-176). -/
inductive TargetKind
  | jvm
  | python
  | other
deriving DecidableEq, Repr

/-- One invocation's resolved environment: ambient globals
(`get_buildroot`, `get_scm`, cwd), the parsed command line, the unique
directory name chosen by `temporary_dir`, and the outcome of each of the
three template renders (the `Generator` is an external collaborator; an
`error s` outcome means the render raised after emitting the text `s`). -/
structure Env where
  buildroot : String
  cwd : String
  positional_args : List String
  target_roots : List TargetKind
  scm_worktree : Option String
  workdir_name : String
  render_ipr : Except String String
  render_iws : Except String String
  render_iml : Except String String
  opts : Options
deriving Repr

/-- Model of `os.path.abspath` for the already-normalized paths this task
builds: an absolute path is returned unchanged, a relative one is joined
onto the current working directory (no `normpath` collapsing is needed
because the task only ever joins clean components). -/
def os_path_abspath (cwd p : String) : String :=
  if startsWithChar '/' p then p else os_path_join cwd p

/-- The explicit filesystem state: the set of directories created, the
files present (path, full content) and the counter feeding fresh
temporary names. -/
structure FS where
  dirs : List String
  files : List (String × String)
  tmpCounter : Nat
deriving DecidableEq, Repr

/-- Read a file's content. -/
def FS.read (fs : FS) (p : String) : Option String :=
  (fs.files.find? (fun e => e.1 = p)).map (fun e => e.2)

/-- Create or overwrite a file. -/
def FS.write (fs : FS) (p : String) (content : String) : FS :=
  { fs with files := (p, content) :: fs.files.filter (fun e => ¬(e.1 = p)) }

/-- Delete a file. -/
def FS.remove (fs : FS) (p : String) : FS :=
  { fs with files := fs.files.filter (fun e => ¬(e.1 = p)) }

/-- Model of `shutil.move(src, dst)` in the same-file case used here:
the content of `src` ends up at `dst` and `src` is gone. -/
def FS.move (fs : FS) (src dst : String) : FS :=
  match fs.read src with
  | some c => (fs.remove src).write dst c
  | none => fs

/-- Model of `safe_mkdir` / `os.makedirs`: records the directory,
idempotently. -/
def FS.mkdirp (fs : FS) (p : String) : FS :=
  if fs.dirs.contains p then fs else { fs with dirs := p :: fs.dirs }

/-- The directory `tempfile` places unnamed temporary files in
(`tempfile.gettempdir()`; the task passes no `dir=`). -/
def tmp_dir : String := "/tmp"

/-- The `n`-th fresh temporary file name. -/
def tmp_name (n : Nat) : String := tmp_dir ++ "/tmp" ++ toString n

/-- Model of `tempfile.NamedTemporaryFile(delete=False)`: creates a fresh
empty file under `tmp_dir` and returns its path. -/
def FS.mktemp (fs : FS) : FS × String :=
  let p := tmp_name fs.tmpCounter
  ({ fs with tmpCounter := fs.tmpCounter + 1,
             files := (p, "") :: fs.files.filter (fun e => ¬(e.1 = p)) }, p)

/-- `IdeaPluginGen._generate_to_tempfile` (lines 162-167):
`temporary_file(cleanup=False)` followed by `generator.write(output)`.
On success the full rendered text is in the temp file and its path is
returned; on failure the partially written temp file stays behind
(cleanup is disabled) and the exception propagates. -/
def generate_to_tempfile (fs : FS) (render : Except String String) :
    FS × Except String String :=
  let fs1 := fs.mktemp.1
  let p := fs.mktemp.2
  match render with
  | .ok text => (fs1.write p text, .ok p)
  | .error leftover => (fs1.write p leftover, .error leftover)

/-- The spec's `AtomicFileWriter.writeRendered` unit as the source
realizes it for one file: `_generate_to_tempfile` followed by
`shutil.move` to the final path (lines 147-158, per file). -/
def write_rendered (fs : FS) (render : Except String String)
    (finalPath : String) : FS × Except String String :=
  match generate_to_tempfile fs render with
  | (fs1, .ok tmp) => (fs1.move tmp finalPath, .ok finalPath)
  | (fs1, .error e) => (fs1, .error e)

/-- Is `pre` a prefix of `s` (by characters)? -/
def str_is_pre (pre s : String) : Bool :=
  List.isPrefixOf pre.data s.data

/-- A mount table assigning a filesystem identifier to each path by
first matching mount-point name: used to express on which filesystem a
path lives. -/
def fs_of (mounts : List (String × String)) (p : String) : String :=
  match mounts.find? (fun m => str_is_pre m.1 p) with
  | some m => m.2
  | none => "rootfs"

/-- Two paths live on the same filesystem under the mount table. -/
def same_filesystem (mounts : List (String × String)) (p q : String) : Bool :=
  fs_of mounts p == fs_of mounts q

/-- The errors `console_output` / `generate_project` can raise:
`TaskError(msg)`, the `IndexError` from `abs_target_specs[0]` on an empty
specifier list, and a propagated render failure. -/
inductive TaskErr
  | taskError (msg : String)
  | indexError
  | renderFailure (leftover : String)
deriving DecidableEq, Repr

/-- The `java=TemplateData(...)` sub-record (lines 128-132). -/
structure JavaTemplateData where
  encoding : String
  jdk : String
  language_level : String
deriving DecidableEq, Repr

/-- `configured_project` (lines 124-134). -/
structure ProjectTemplateData where
  root_dir : String
  outdir : String
  git_root : Option String
  java : JavaTemplateData
  debug_port : Int
deriving DecidableEq, Repr

/-- `configured_workspace` (lines 137-142). -/
structure WorkspaceTemplateData where
  targets : String
  project_path : String
  idea_plugin_version : String
  incremental_import : Option Int
deriving DecidableEq, Repr

/-- `self.java_jdk` (lines 91-94): the explicit option if set, else
`'1.{}'.format(java_language_level)`. -/
def java_jdk (opts : Options) : String :=
  match opts.java_jdk_name with
  | some n => n
  | none => "1." ++ toString opts.java_language_level

/-- The `configured_project` record of `generate_project`
(lines 124-134). -/
def configured_project (env : Env) (outdir : String) : ProjectTemplateData :=
  { root_dir := env.buildroot
  , outdir := outdir
  , git_root := env.scm_worktree
  , java :=
    { encoding := env.opts.java_encoding
    , jdk := java_jdk env.opts
    , language_level := "JDK_1_" ++ toString env.opts.java_language_level }
  , debug_port := env.opts.debug_port }

/-- `abs_target_specs` (line 136): build root joined with each raw
positional specifier. -/
def abs_target_specs (env : Env) : List String :=
  env.positional_args.map (fun spec => os_path_join env.buildroot spec)

/-- The `configured_workspace` record (lines 137-142).  `none` models the
`IndexError` that `abs_target_specs[0]` raises on an empty list. -/
def configured_workspace (env : Env) : Option WorkspaceTemplateData :=
  match abs_target_specs env with
  | [] => none
  | a0 :: rest =>
    some
    { targets := json_dumps_str_list (a0 :: rest)
    , project_path := os_path_join env.buildroot (py_split_first ':' a0)
    , idea_plugin_version := IDEA_PLUGIN_VERSION
    , incremental_import := env.opts.incremental_import }

/-- The per-invocation file names computed in `__init__` (lines 96-109). -/
structure GenPaths where
  output_dir : String
  gen_project_workdir : String
  project_filename : String
  workspace_filename : String
  rootmodule_filename : String
  intellij_output_dir : String
deriving DecidableEq, Repr

/-- The paths chosen by `__init__` (lines 96-109):
`output_dir = <buildroot>/.idea/IdeaPluginGen`, a unique working
directory below it from `temporary_dir` (its random basename is
`env.workdir_name`), and the three output file names inside it. -/
def gen_paths (env : Env) : GenPaths :=
  let output_dir :=
    os_path_join (os_path_join env.buildroot ".idea") "IdeaPluginGen"
  let workdir := os_path_join output_dir env.workdir_name
  let name := get_project_name env.positional_args
  { output_dir := output_dir
  , gen_project_workdir := workdir
  , project_filename := os_path_join workdir (name ++ ".ipr")
  , workspace_filename := os_path_join workdir (name ++ ".iws")
  , rootmodule_filename := os_path_join workdir "rootmodule.iml"
  , intellij_output_dir := os_path_join workdir "out" }

/-- The directory side effects of `__init__` (lines 96-99):
`safe_mkdir(output_dir)` and the creation of the unique working
directory by `temporary_dir(root_dir=output_dir, cleanup=False)`.
These happen during task construction, before `console_output` runs. -/
def init_fs (env : Env) (fs : FS) : FS :=
  ((fs.mkdirp (gen_paths env).output_dir).mkdirp
    (gen_paths env).gen_project_workdir)

/-- `IdeaPluginGen.generate_project` (lines 118-160): ensure the `out`
directory, build the two template-data records, render all three
templates to temporary files, then move the three temporary files to
their final paths, returning the project file path. -/
def generate_project (env : Env) (paths : GenPaths) (fs : FS) :
    FS × Except TaskErr String :=
  let outdir := os_path_abspath env.cwd paths.intellij_output_dir
  let fs := fs.mkdirp outdir
  match configured_workspace env with
  | none => (fs, .error .indexError)
  | some _ws =>
    let fs := fs.mkdirp outdir
    match generate_to_tempfile fs env.render_ipr with
    | (fs, .error e) => (fs, .error (.renderFailure e))
    | (fs, .ok t1) =>
      match generate_to_tempfile fs env.render_iws with
      | (fs, .error e) => (fs, .error (.renderFailure e))
      | (fs, .ok t2) =>
        match generate_to_tempfile fs env.render_iml with
        | (fs, .error e) => (fs, .error (.renderFailure e))
        | (fs, .ok t3) =>
          let fs := fs.move t1 paths.project_filename
          let fs := fs.move t2 paths.workspace_filename
          let fs := fs.move t3 paths.rootmodule_filename
          (fs, .ok paths.project_filename)

/-- `jvm_target_num` (line 175). -/
def jvm_target_num (roots : List TargetKind) : Nat :=
  (roots.filter (fun t => t = TargetKind.jvm)).length

/-- `python_target_num` (line 176). -/
def python_target_num (roots : List TargetKind) : Nat :=
  (roots.filter (fun t => t = TargetKind.python)).length

/-- The advisory warning text of lines 178-179. -/
def python_warning : String :=
  "This is likely a python project. Please make sure to select the proper python interpreter as Project SDK in IntelliJ."

/-- `IdeaPluginGen.console_output` up to the yield (lines 169-182):
raise `TaskError("No targets specified.")` on an empty specifier list,
otherwise emit the advisory python-project warning when python targets
outnumber JVM targets, and run `generate_project` regardless.  Returns
the final filesystem, the warnings logged, and the generation outcome. -/
def console_output (env : Env) (paths : GenPaths) (fs : FS) :
    FS × List String × Except TaskErr String :=
  if env.positional_args = [] then
    (fs, [], .error (.taskError "No targets specified."))
  else
    ((generate_project env paths fs).1,
     (if jvm_target_num env.target_roots < python_target_num env.target_roots
      then [python_warning] else []),
     (generate_project env paths fs).2)

/-- One whole invocation: task construction (`__init__` side effects)
followed by `console_output`. -/
def run_invocation (env : Env) (fs : FS) :
    FS × List String × Except TaskErr String :=
  console_output env (gen_paths env) (init_fs env fs)

/-- Default option values (lines 60-75). -/
def opts0 : Options :=
  { openOpt := true
  , incremental_import := none
  , java_encoding := "UTF-8"
  , open_with := none
  , debug_port := 5005
  , java_jdk_name := none
  , java_language_level := 8 }

/-- A concrete sample environment used by witnesses and counterexamples. -/
def env0 : Env :=
  { buildroot := "/repo"
  , cwd := "/repo"
  , positional_args := ["a:t1", "b:t2"]
  , target_roots := [TargetKind.python, TargetKind.python, TargetKind.jvm]
  , scm_worktree := none
  , workdir_name := "tmp1"
  , render_ipr := .ok "IPR"
  , render_iws := .ok "IWS"
  , render_iml := .ok "IML"
  , opts := opts0 }

/-- The sample environment with no target specifiers. -/
def env0e : Env := { env0 with positional_args := [] }

/-- The sample environment whose workspace-template render fails. -/
def env0f : Env := { env0 with render_iws := .error "BOOM" }

/-- The empty starting filesystem. -/
def fs0 : FS := { dirs := [], files := [], tmpCounter := 0 }

/-! ## Lemmas about the name-derivation pipeline -/

theorem inClass_ne_dot {a : Char} (ha : inClass a = true) : (a == '.') = false := by
  cases h' : a == '.'
  · rfl
  · exact absurd (beq_iff_eq.mp h' ▸ ha) (by decide)

theorem mem_subBadRunsAux :
    ∀ (l : List Char) (b : Bool) (c : Char),
      c ∈ subBadRunsAux b l → inClass c = true ∨ c = '.' := by
  intro l
  induction l with
  | nil => intro b c h; simp [subBadRunsAux] at h
  | cons a l ih =>
    intro b c h
    by_cases ha : inClass a = true
    · simp only [subBadRunsAux, if_pos ha] at h
      rcases List.mem_cons.mp h with h1 | h1
      · exact Or.inl (h1 ▸ ha)
      · exact ih false c h1
    · simp only [subBadRunsAux, if_neg ha] at h
      cases b with
      | true => simp only [if_pos] at h; exact ih true c h
      | false =>
        simp only [Bool.false_eq_true, if_false] at h
        rcases List.mem_cons.mp h with h1 | h1
        · exact Or.inr h1
        · exact ih true c h1

theorem head_subBadRunsAux_true :
    ∀ (l : List Char) (c : Char),
      (subBadRunsAux true l).head? = some c → inClass c = true := by
  intro l
  induction l with
  | nil => intro c h; simp [subBadRunsAux] at h
  | cons a l ih =>
    intro c h
    by_cases ha : inClass a = true
    · simp only [subBadRunsAux, if_pos ha, List.head?_cons, Option.some.injEq] at h
      exact h ▸ ha
    · simp only [subBadRunsAux, if_neg ha, if_pos] at h
      exact ih c h

theorem hasDotDot_subBadRunsAux :
    ∀ (l : List Char) (b : Bool), hasDotDot (subBadRunsAux b l) = false := by
  intro l
  induction l with
  | nil => intro b; rfl
  | cons a l ih =>
    intro b
    by_cases ha : inClass a = true
    · have hne := inClass_ne_dot ha
      simp only [subBadRunsAux, if_pos ha]
      cases hX : subBadRunsAux false l with
      | nil => rfl
      | cons y ys =>
        have h2 : hasDotDot (y :: ys) = false := hX ▸ ih false
        simp [hasDotDot, hne, h2]
    · simp only [subBadRunsAux, if_neg ha]
      cases b with
      | true => simp only [if_pos]; exact ih true
      | false =>
        simp only [Bool.false_eq_true, if_false]
        cases hX : subBadRunsAux true l with
        | nil => rfl
        | cons y ys =>
          have hy : inClass y = true :=
            head_subBadRunsAux_true l y (by rw [hX]; rfl)
          have h2 : hasDotDot (y :: ys) = false := hX ▸ ih true
          simp [hasDotDot, inClass_ne_dot hy, h2]

theorem hasDotDot_append (s t : List Char) :
    hasDotDot (s ++ '.' :: '.' :: t) = true := by
  induction s with
  | nil => simp [hasDotDot]
  | cons a s ih =>
    cases s with
    | nil => simp_all [hasDotDot]
    | cons bch s' => simp_all [hasDotDot]

/-- C3: for every ordered sequence of target specifiers,
`get_project_name` always succeeds (it is a total function, hence also
deterministic), its output has length at most 200 and consists only of
characters from `[0-9a-zA-Z:_.]` (so it matches `^[0-9a-zA-Z:_.]{0,200}$`),
and the empty sequence yields the empty string. -/
theorem c3_name_derivation_total_bounded :
    (∀ specs : List String,
        (get_project_name specs).length ≤ 200
      ∧ ∀ c ∈ (get_project_name specs).data, inClass c = true ∨ c = '.')
  ∧ get_project_name [] = "" := by
  constructor
  · intro specs
    constructor
    · have h : (get_project_name specs).length
          = ((escaped_name specs).data.take 200).length := rfl
      rw [h, List.length_take]
      exact min_le_left _ _
    · intro c hc
      exact mem_subBadRunsAux _ false c (List.take_subset _ _ hc)
  · rfl

/-- Witness for C3 at the concrete input `["a:b"]`, discharging the
membership hypothesis of the character-class conjunct. -/
theorem c3_witness : inClass 'a' = true ∨ 'a' = '.' :=
  (c3_name_derivation_total_bounded.1 ["a:b"]).2 'a' (by decide)

/-- C4: the name is built by joining the specifiers with `__` and
replacing every maximal run of characters outside `[0-9a-zA-Z:_]` by a
single `.`; hence every character of the untruncated `escaped_name` is in
the class or is a `.`, and the untruncated result never contains two
adjacent `.` characters. -/
theorem c4_runs_collapse_no_adjacent_dots :
    ∀ specs : List String,
      (∀ c ∈ (escaped_name specs).data, inClass c = true ∨ c = '.')
    ∧ ¬ ∃ s t : List Char, (escaped_name specs).data = s ++ '.' :: '.' :: t := by
  intro specs
  constructor
  · intro c hc
    exact mem_subBadRunsAux _ false c hc
  · rintro ⟨s, t, heq⟩
    have h1 := hasDotDot_subBadRunsAux (joinSep "__" specs).data false
    have h2 : (escaped_name specs).data
        = subBadRunsAux false (joinSep "__" specs).data := rfl
    rw [h2] at heq
    rw [heq, hasDotDot_append] at h1
    exact Bool.true_eq_false.mp h1

/-- Witness for C4 at the concrete input `["a/b"]` (whose `/` collapses to
a dot), discharging the membership hypothesis. -/
theorem c4_witness :
    (inClass 'a' = true ∨ 'a' = '.')
  ∧ ¬ ∃ s t : List Char, (escaped_name ["a/b"]).data = s ++ '.' :: '.' :: t :=
  ⟨(c4_runs_collapse_no_adjacent_dots ["a/b"]).1 'a' (by decide),
   (c4_runs_collapse_no_adjacent_dots ["a/b"]).2⟩

/-- C2 counterexample: on `["src/java/com/example::"]` the derived name is
NOT `src.java.com.example..` — the regex class `[^0-9a-zA-Z:_]+` keeps
colons, so the trailing `::` survives unchanged. -/
theorem c2_counterexample :
    get_project_name ["src/java/com/example::"] ≠ "src.java.com.example.." := by
  decide

/-- C2 (amended): on `["src/java/com/example::"]` the derived name is
`src.java.com.example::` (slashes collapse to dots, colons are kept), and
with configured Java language level 8 the generated project data's
`java.language_level` is `JDK_1_8`. -/
theorem c2_amended_scenario_a (env : Env) (outdir : String)
    (h : env.opts.java_language_level = 8) :
    get_project_name ["src/java/com/example::"] = "src.java.com.example::"
  ∧ (configured_project env outdir).java.language_level = "JDK_1_8" := by
  constructor
  · decide
  · simp only [configured_project, h]
    rfl

/-- Witness for C2 (amended) at the sample environment (language level 8). -/
theorem c2_witness :
    get_project_name ["src/java/com/example::"] = "src.java.com.example::"
  ∧ (configured_project env0 "/repo/out").java.language_level = "JDK_1_8" :=
  c2_amended_scenario_a env0 "/repo/out" rfl

/-! ## Lemmas about strings, paths and the JSON encoding -/

theorem str_eq_of_data {a b : String} (h : a.data = b.data) : a = b := by
  cases a; cases b; exact congrArg String.mk h

theorem data_append (a b : String) : (a ++ b).data = a.data ++ b.data := by
  cases a; cases b; rfl

theorem str_append_assoc (a b c : String) : (a ++ b) ++ c = a ++ (b ++ c) := by
  apply str_eq_of_data
  simp [data_append, List.append_assoc]

theorem startsWithChar_iff {c : Char} {s : String} :
    startsWithChar c s = true ↔ ∃ rest, s.data = c :: rest := by
  obtain ⟨l⟩ := s
  cases l with
  | nil =>
    constructor
    · intro hd; exact absurd hd (by simp [startsWithChar])
    · rintro ⟨rest, hr⟩; exact absurd hr (by simp)
  | cons d rest' =>
    constructor
    · intro hd
      have hd' : (d == c) = true := hd
      exact ⟨rest', by rw [beq_iff_eq.mp hd']⟩
    · rintro ⟨rest, hr⟩
      injection hr with h1 _
      show (d == c) = true
      exact beq_iff_eq.mpr h1

/-- A character that `json.dumps` leaves unescaped. -/
def jsonPlainChar (c : Char) : Bool :=
  (32 ≤ c.toNat && c.toNat ≤ 126) && !(c == '"') && !(c == '\\')

theorem jsonEscapeChar_plain {c : Char} (h : jsonPlainChar c = true) :
    jsonEscapeChar c = [c] := by
  simp only [jsonPlainChar, Bool.and_eq_true, Bool.not_eq_true',
    decide_eq_true_eq] at h
  obtain ⟨⟨⟨h1, h2⟩, hq⟩, hb⟩ := h
  have hn : (c == '\n') = false := by
    cases hx : c == '\n'
    · rfl
    · have he : c = '\n' := beq_iff_eq.mp hx
      subst he
      exact absurd h1 (by decide)
  have ht : (c == '\t') = false := by
    cases hx : c == '\t'
    · rfl
    · have he : c = '\t' := beq_iff_eq.mp hx
      subst he
      exact absurd h1 (by decide)
  have hr : (c == '\r') = false := by
    cases hx : c == '\r'
    · rfl
    · have he : c = '\r' := beq_iff_eq.mp hx
      subst he
      exact absurd h1 (by decide)
  have h8 : (c.toNat == 8) = false := by
    cases hx : c.toNat == 8
    · rfl
    · have he : c.toNat = 8 := beq_iff_eq.mp hx
      rw [he] at h1
      exact absurd h1 (by decide)
  have h12 : (c.toNat == 12) = false := by
    cases hx : c.toNat == 12
    · rfl
    · have he : c.toNat = 12 := beq_iff_eq.mp hx
      rw [he] at h1
      exact absurd h1 (by decide)
  have hcond : (32 ≤ c.toNat && c.toNat ≤ 126) = true := by simp [h1, h2]
  simp [jsonEscapeChar, hq, hb, hn, ht, hr, h8, h12, hcond]

theorem json_escape_list_append (l1 l2 : List Char) :
    json_escape_list (l1 ++ l2)
      = json_escape_list l1 ++ json_escape_list l2 := by
  induction l1 with
  | nil => rfl
  | cons c cs ih => simp [json_escape_list, ih]

theorem json_escape_list_plain {l : List Char}
    (h : ∀ c ∈ l, jsonPlainChar c = true) :
    json_escape_list l = l := by
  induction l with
  | nil => rfl
  | cons c cs ih =>
    simp [json_escape_list, jsonEscapeChar_plain (h c (by simp)),
      ih (fun d hd => h d (by simp [hd]))]

theorem json_dumps_str_plain {s : String}
    (h : ∀ c ∈ s.data, jsonPlainChar c = true) :
    json_dumps_str s = "\"" ++ s ++ "\"" := by
  apply str_eq_of_data
  show '"' :: (json_escape_list s.data ++ ['"']) = (("\"" ++ s) ++ "\"").data
  rw [json_escape_list_plain h, data_append, data_append]
  have e1 : "\"".data = ['"'] := by decide
  rw [e1]
  simp

theorem json_dumps_two (x y : String)
    (hx : ∀ c ∈ x.data, jsonPlainChar c = true)
    (hy : ∀ c ∈ y.data, jsonPlainChar c = true) :
    json_dumps_str_list [x, y] = "[\"" ++ x ++ "\", \"" ++ y ++ "\"]" := by
  have hj : joinSep ", " [json_dumps_str x, json_dumps_str y]
      = json_dumps_str x ++ ", " ++ json_dumps_str y := by
    rfl
  rw [json_dumps_str_list]
  simp only [List.map_cons, List.map_nil]
  rw [hj, json_dumps_str_plain hx, json_dumps_str_plain hy]
  apply str_eq_of_data
  simp [data_append, List.append_assoc]

theorem takeWhile_append_of_all {p : Char → Bool} :
    ∀ (l1 l2 : List Char), (∀ c ∈ l1, p c = true) →
      List.takeWhile p (l1 ++ l2) = l1 ++ List.takeWhile p l2 := by
  intro l1
  induction l1 with
  | nil => intro l2 _; rfl
  | cons c cs ih =>
    intro l2 h
    simp [List.takeWhile_cons, h c (by simp),
      ih l2 (fun d hd => h d (by simp [hd]))]

theorem splitOnChar_ne_nil (sep : Char) (l : List Char) :
    splitOnChar sep l ≠ [] := by
  cases l with
  | nil => simp [splitOnChar]
  | cons c cs =>
    simp only [splitOnChar]
    by_cases h : (c == sep) = true
    · simp [h]
    · simp only [h, Bool.false_eq_true, if_false]
      cases splitOnChar sep cs <;> simp

theorem splitOnChar_head (sep : Char) :
    ∀ l : List Char,
      (splitOnChar sep l).headD []
        = l.takeWhile (fun c => !(c == sep)) := by
  intro l
  induction l with
  | nil => rfl
  | cons c cs ih =>
    by_cases h : (c == sep) = true
    · simp [splitOnChar, h, List.takeWhile_cons]
    · simp only [splitOnChar, h, Bool.false_eq_true, if_false]
      cases hs : splitOnChar sep cs with
      | nil => exact absurd hs (splitOnChar_ne_nil sep cs)
      | cons hh tt =>
        rw [hs] at ih
        simp only [List.headD_cons] at ih ⊢
        simp [List.takeWhile_cons, h, ih]

/-- C5 counterexample: on specifiers `["a:t1", "b:t2"]` with build root
`/repo`, the workspace `targets` field is NOT the claimed JSON text
without a space — `json.dumps` uses the default `", "` item separator. -/
theorem c5_counterexample :
    (configured_workspace env0).map (fun w => w.targets)
      ≠ some "[\"/repo/a:t1\",\"/repo/b:t2\"]" := by
  decide

/-- C5 (amended): on specifiers `["a:t1", "b:t2"]`, for any absolute
build root (colon-free, JSON-plain, no trailing slash), the workspace
`targets` field is the JSON text
`["<buildRoot>/a:t1", "<buildRoot>/b:t2"]` (with `json.dumps`'s default
`", "` separator) and `project_path` is `<buildRoot>/a`. -/
theorem c5_amended_scenario_b (env : Env)
    (hargs : env.positional_args = ["a:t1", "b:t2"])
    (h1 : startsWithChar '/' env.buildroot = true)
    (h2 : endsWithChar '/' env.buildroot = false)
    (h4 : ∀ c ∈ env.buildroot.data, jsonPlainChar c = true ∧ c ≠ ':') :
    (configured_workspace env).map (fun w => w.targets)
      = some ("[\"" ++ env.buildroot ++ "/a:t1\", \"" ++ env.buildroot
                ++ "/b:t2\"]")
  ∧ (configured_workspace env).map (fun w => w.project_path)
      = some (env.buildroot ++ "/a") := by
  obtain ⟨rest, hb⟩ := startsWithChar_iff.mp h1
  have hbne : ¬ env.buildroot = "" := by
    intro he
    rw [he] at hb
    simp at hb
  have hends : ¬ (endsWithChar '/' env.buildroot = true) := by simp [h2]
  have hjoin1 : os_path_join env.buildroot "a:t1"
      = env.buildroot ++ "/a:t1" := by
    unfold os_path_join
    rw [if_neg (by decide : ¬ (startsWithChar '/' "a:t1" = true)),
      if_neg hbne, if_neg hends, str_append_assoc]
    congr 1
  have hjoin2 : os_path_join env.buildroot "b:t2"
      = env.buildroot ++ "/b:t2" := by
    unfold os_path_join
    rw [if_neg (by decide : ¬ (startsWithChar '/' "b:t2" = true)),
      if_neg hbne, if_neg hends, str_append_assoc]
    congr 1
  have habs : abs_target_specs env
      = [env.buildroot ++ "/a:t1", env.buildroot ++ "/b:t2"] := by
    simp [abs_target_specs, hargs, hjoin1, hjoin2]
  have hws : configured_workspace env = some
      { targets := json_dumps_str_list
          [env.buildroot ++ "/a:t1", env.buildroot ++ "/b:t2"]
      , project_path := os_path_join env.buildroot
          (py_split_first ':' (env.buildroot ++ "/a:t1"))
      , idea_plugin_version := IDEA_PLUGIN_VERSION
      , incremental_import := env.opts.incremental_import } := by
    unfold configured_workspace
    rw [habs]
  have hxplain : ∀ c ∈ (env.buildroot ++ "/a:t1").data,
      jsonPlainChar c = true := by
    intro c hc
    rw [data_append] at hc
    rcases List.mem_append.mp hc with h | h
    · exact (h4 c h).1
    · exact (by decide : ∀ c ∈ "/a:t1".data, jsonPlainChar c = true) c h
  have hyplain : ∀ c ∈ (env.buildroot ++ "/b:t2").data,
      jsonPlainChar c = true := by
    intro c hc
    rw [data_append] at hc
    rcases List.mem_append.mp hc with h | h
    · exact (h4 c h).1
    · exact (by decide : ∀ c ∈ "/b:t2".data, jsonPlainChar c = true) c h
  constructor
  · rw [hws]
    simp only [Option.map_some']
    congr 1
    rw [json_dumps_two _ _ hxplain hyplain]
    apply str_eq_of_data
    simp [data_append, List.append_assoc]
  · rw [hws]
    simp only [Option.map_some']
    congr 1
    have hallb : ∀ c ∈ env.buildroot.data, (!(c == ':')) = true := by
      intro c hc
      cases hx : c == ':'
      · rfl
      · exact absurd (beq_iff_eq.mp hx) (h4 c hc).2
    have htw : List.takeWhile (fun c => !(c == ':')) "/a:t1".data
        = ['/', 'a'] := by decide
    have hsplit : py_split_first ':' (env.buildroot ++ "/a:t1")
        = String.mk (env.buildroot.data ++ ['/', 'a']) := by
      unfold py_split_first
      rw [splitOnChar_head, data_append,
        takeWhile_append_of_all _ _ hallb, htw]
    have hstart2 : startsWithChar '/'
        (String.mk (env.buildroot.data ++ ['/', 'a'])) = true := by
      apply startsWithChar_iff.mpr
      refine ⟨rest ++ ['/', 'a'], ?_⟩
      show env.buildroot.data ++ ['/', 'a'] = '/' :: (rest ++ ['/', 'a'])
      rw [hb]
      simp
    rw [hsplit]
    unfold os_path_join
    rw [if_pos hstart2]
    apply str_eq_of_data
    rw [data_append]

/-- Witness for C5 (amended) at build root `/repo`. -/
theorem c5_witness :
    (configured_workspace env0).map (fun w => w.targets)
      = some ("[\"" ++ env0.buildroot ++ "/a:t1\", \"" ++ env0.buildroot
                ++ "/b:t2\"]")
  ∧ (configured_workspace env0).map (fun w => w.project_path)
      = some (env0.buildroot ++ "/a") :=
  c5_amended_scenario_b env0 rfl (by decide) (by decide) (by decide)

/-! ## Lemmas about the filesystem model -/

theorem find?_filter_ne (l : List (String × String)) {p q : String}
    (h : ¬ q = p) :
    (l.filter (fun e => ¬(e.1 = p))).find? (fun e => e.1 = q)
      = l.find? (fun e => e.1 = q) := by
  induction l with
  | nil => rfl
  | cons e l ih =>
    by_cases he : e.1 = p
    · have hq : ¬ (e.1 = q) := by
        rw [he]
        intro hqq
        exact h hqq.symm
      rw [List.filter_cons_of_neg (by simp [he])]
      rw [List.find?_cons_of_neg _ (by simp [hq])]
      exact ih
    · by_cases heq : e.1 = q
      · rw [List.filter_cons_of_pos (by simp [he]),
          List.find?_cons_of_pos _ (by simp [heq]),
          List.find?_cons_of_pos _ (by simp [heq])]
      · rw [List.filter_cons_of_pos (by simp [he]),
          List.find?_cons_of_neg _ (by simp [heq]),
          List.find?_cons_of_neg _ (by simp [heq])]
        exact ih

theorem find?_filter_self (l : List (String × String)) (p : String) :
    (l.filter (fun e => ¬(e.1 = p))).find? (fun e => e.1 = p) = none := by
  induction l with
  | nil => rfl
  | cons e l ih =>
    by_cases he : e.1 = p
    · rw [List.filter_cons_of_neg (by simp [he])]
      exact ih
    · rw [List.filter_cons_of_pos (by simp [he]),
        List.find?_cons_of_neg _ (by simp [he])]
      exact ih

theorem fs_read_write_self (fs : FS) (p c : String) :
    (fs.write p c).read p = some c := by
  unfold FS.read FS.write
  rw [List.find?_cons_of_pos _ (by simp)]
  rfl

theorem fs_read_write_ne (fs : FS) {p q : String} (c : String)
    (h : ¬ q = p) :
    (fs.write p c).read q = fs.read q := by
  unfold FS.read FS.write
  rw [List.find?_cons_of_neg _ (by simp; exact fun hh => h hh.symm),
    find?_filter_ne _ h]

theorem fs_read_remove_self (fs : FS) (p : String) :
    (fs.remove p).read p = none := by
  unfold FS.read FS.remove
  rw [find?_filter_self]
  rfl

theorem fs_read_remove_ne (fs : FS) {p q : String} (h : ¬ q = p) :
    (fs.remove p).read q = fs.read q := by
  unfold FS.read FS.remove
  rw [find?_filter_ne _ h]

theorem fs_read_move {fs : FS} {src : String} {c : String}
    (hsome : fs.read src = some c) (dst q : String) :
    (fs.move src dst).read q
      = if q = dst then some c
        else if q = src then none else fs.read q := by
  unfold FS.move
  rw [hsome]
  by_cases h1 : q = dst
  · subst h1
    rw [if_pos rfl, fs_read_write_self]
  · rw [if_neg h1, fs_read_write_ne _ _ h1]
    by_cases h2 : q = src
    · subst h2
      rw [if_pos rfl, fs_read_remove_self]
    · rw [if_neg h2, fs_read_remove_ne _ h2]

theorem fs_mktemp_read (fs : FS) (q : String) :
    fs.mktemp.1.read q = (fs.write (tmp_name fs.tmpCounter) "").read q := rfl

theorem fs_read_mktemp_ne (fs : FS) {q : String}
    (h : ¬ q = tmp_name fs.tmpCounter) :
    fs.mktemp.1.read q = fs.read q := by
  rw [fs_mktemp_read]
  exact fs_read_write_ne _ _ h

theorem fs_mkdirp_files (fs : FS) (p : String) :
    (fs.mkdirp p).files = fs.files := by
  unfold FS.mkdirp
  by_cases h : fs.dirs.contains p
  · rw [if_pos h]
  · rw [if_neg h]

theorem fs_mkdirp_read (fs : FS) (p q : String) :
    (fs.mkdirp p).read q = fs.read q := by
  unfold FS.read
  rw [fs_mkdirp_files]

/-- C6: if rendering fails while `write_rendered` targets a `finalPath`
that already holds a prior file, the prior file is unchanged, the
temporary file (with whatever partial output the failed render wrote) is
left in place, and the error propagates. -/
theorem c6_render_failure_preserves_prior (fs : FS)
    (e finalPath prior : String)
    (hprior : fs.read finalPath = some prior)
    (hne : ¬ finalPath = tmp_name fs.tmpCounter) :
    (write_rendered fs (.error e) finalPath).1.read finalPath = some prior
  ∧ (write_rendered fs (.error e) finalPath).2 = Except.error e
  ∧ (write_rendered fs (.error e) finalPath).1.read
      (tmp_name fs.tmpCounter) = some e := by
  have h0 : write_rendered fs (.error e) finalPath
      = ((fs.mktemp.1).write (tmp_name fs.tmpCounter) e, Except.error e) :=
    rfl
  rw [h0]
  refine ⟨?_, rfl, ?_⟩
  · rw [fs_read_write_ne _ _ hne, fs_read_mktemp_ne _ hne]
    exact hprior
  · exact fs_read_write_self _ _ _

/-- Witness for C6 at a concrete filesystem holding a prior file. -/
theorem c6_witness :
    (write_rendered
        { dirs := [], files := [("/repo/p.ipr", "OLD")], tmpCounter := 0 }
        (.error "PARTIAL") "/repo/p.ipr").1.read "/repo/p.ipr" = some "OLD"
  ∧ (write_rendered
        { dirs := [], files := [("/repo/p.ipr", "OLD")], tmpCounter := 0 }
        (.error "PARTIAL") "/repo/p.ipr").2 = Except.error "PARTIAL"
  ∧ (write_rendered
        { dirs := [], files := [("/repo/p.ipr", "OLD")], tmpCounter := 0 }
        (.error "PARTIAL") "/repo/p.ipr").1.read (tmp_name 0)
      = some "PARTIAL" :=
  c6_render_failure_preserves_prior
    { dirs := [], files := [("/repo/p.ipr", "OLD")], tmpCounter := 0 }
    "PARTIAL" "/repo/p.ipr" "OLD" (by decide) (by decide)

/-- C7: when rendering succeeds, the content at `finalPath` afterwards is
exactly the renderer's text; and in every case `finalPath` holds either
its previous content or a fully rendered text — never a partial write. -/
theorem c7_roundtrip_no_partial_write (fs : FS)
    (render : Except String String) (finalPath : String)
    (hne : ¬ finalPath = tmp_name fs.tmpCounter) :
    (∀ text, render = .ok text →
      (write_rendered fs render finalPath).1.read finalPath = some text
      ∧ (write_rendered fs render finalPath).2 = .ok finalPath)
  ∧ ((write_rendered fs render finalPath).1.read finalPath
        = fs.read finalPath
      ∨ ∃ text, render = .ok text
          ∧ (write_rendered fs render finalPath).1.read finalPath
              = some text) := by
  cases render with
  | error e =>
    constructor
    · intro text h
      cases h
    · left
      have h0 : (write_rendered fs (.error e) finalPath).1
          = (fs.mktemp.1).write (tmp_name fs.tmpCounter) e := rfl
      rw [h0, fs_read_write_ne _ _ hne, fs_read_mktemp_ne _ hne]
  | ok text =>
    have h0 : (write_rendered fs (.ok text) finalPath).1
        = ((fs.mktemp.1).write (tmp_name fs.tmpCounter) text).move
            (tmp_name fs.tmpCounter) finalPath := rfl
    have h1 : (write_rendered fs (.ok text) finalPath).2
        = .ok finalPath := rfl
    have hsome :
        ((fs.mktemp.1).write (tmp_name fs.tmpCounter) text).read
          (tmp_name fs.tmpCounter) = some text :=
      fs_read_write_self _ _ _
    have hread : (write_rendered fs (.ok text) finalPath).1.read finalPath
        = some text := by
      rw [h0, fs_read_move hsome, if_pos rfl]
    constructor
    · intro text' h
      injection h with h
      subst h
      exact ⟨hread, h1⟩
    · right
      exact ⟨text, rfl, hread⟩

/-- Witness for C7 at a concrete successful render. -/
theorem c7_witness :
    ((write_rendered fs0 (.ok "CONTENT") "/repo/p.ipr").1.read "/repo/p.ipr"
        = some "CONTENT"
      ∧ (write_rendered fs0 (.ok "CONTENT") "/repo/p.ipr").2
          = .ok "/repo/p.ipr")
  ∧ ((write_rendered fs0 (.ok "CONTENT") "/repo/p.ipr").1.read "/repo/p.ipr"
        = fs0.read "/repo/p.ipr"
      ∨ ∃ text, (Except.ok "CONTENT" : Except String String) = .ok text
          ∧ (write_rendered fs0 (.ok "CONTENT") "/repo/p.ipr").1.read
              "/repo/p.ipr" = some text) :=
  ⟨(c7_roundtrip_no_partial_write fs0 (.ok "CONTENT") "/repo/p.ipr"
      (by decide)).1 "CONTENT" rfl,
   (c7_roundtrip_no_partial_write fs0 (.ok "CONTENT") "/repo/p.ipr"
      (by decide)).2⟩

/-- C8 counterexample: the temporary file is created under the system
temporary directory (`/tmp`), not next to `finalPath`; under a mount
table with `/tmp` on its own filesystem, the temp file used by
`write_rendered` (left in place here by a failed render) is on a
different filesystem than `finalPath`, refuting the same-filesystem
claim. -/
theorem c8_counterexample :
    (write_rendered fs0 (Except.error "PARTIAL")
        "/repo/.idea/IdeaPluginGen/tmp1/p.ipr").1.read (tmp_name 0)
      = some "PARTIAL"
  ∧ same_filesystem [("/tmp", "tmpfs"), ("/", "rootfs")] (tmp_name 0)
      "/repo/.idea/IdeaPluginGen/tmp1/p.ipr" = false := by
  constructor
  · rfl
  · decide

/-- C8 (amended): `write_rendered` creates its temporary file at the name
determined solely by the temp-name counter, under the system default
temporary directory `tmp_dir`, independent of `finalPath`; the later move
is an atomic rename only if that directory happens to share a filesystem
with `finalPath`. -/
theorem c8_amended_temp_in_tmpdir (fs : FS)
    (render : Except String String) (finalPath : String) :
    (write_rendered fs render finalPath).1.tmpCounter = fs.tmpCounter + 1
  ∧ (generate_to_tempfile fs render).2
      = render.map (fun _ => tmp_name fs.tmpCounter)
  ∧ ∃ rest, (tmp_name fs.tmpCounter).data = (tmp_dir ++ "/").data ++ rest := by
  refine ⟨?_, ?_, ?_⟩
  · cases render with
    | error e => rfl
    | ok text =>
      have h0 : (write_rendered fs (.ok text) finalPath).1
          = ((fs.mktemp.1).write (tmp_name fs.tmpCounter) text).move
              (tmp_name fs.tmpCounter) finalPath := rfl
      have hsome :
          ((fs.mktemp.1).write (tmp_name fs.tmpCounter) text).read
            (tmp_name fs.tmpCounter) = some text :=
        fs_read_write_self _ _ _
      rw [h0]
      unfold FS.move
      rw [hsome]
      rfl
  · cases render <;> rfl
  · refine ⟨'t' :: 'm' :: 'p' :: (toString fs.tmpCounter).data, ?_⟩
    show (tmp_dir ++ "/tmp" ++ toString fs.tmpCounter).data = _
    simp [tmp_dir, data_append]

/-! ## Lemmas about lengths, directories and the generation pipeline -/

theorem str_length_data (s : String) : s.length = s.data.length := rfl

theorem str_len_append (a b : String) :
    (a ++ b).length = a.length + b.length := by
  rw [str_length_data, str_length_data, str_length_data, data_append,
    List.length_append]

theorem os_path_join_length_ge (a : String) {b : String}
    (hb : startsWithChar '/' b = false) :
    a.length + b.length ≤ (os_path_join a b).length := by
  unfold os_path_join
  rw [if_neg (by simp [hb])]
  by_cases ha : a = ""
  · rw [if_pos ha, ha]
    have h0 : ("" : String).length = 0 := rfl
    omega
  · rw [if_neg ha]
    by_cases he : endsWithChar '/' a = true
    · rw [if_pos he, str_len_append]
    · rw [if_neg he, str_len_append, str_len_append]
      have h1 : ("/" : String).length = 1 := rfl
      omega

theorem mem_mkdirp (fs : FS) (p q : String)
    (h : q ∈ (fs.mkdirp p).dirs) : q = p ∨ q ∈ fs.dirs := by
  unfold FS.mkdirp at h
  by_cases hc : fs.dirs.contains p
  · rw [if_pos hc] at h
    exact Or.inr h
  · rw [if_neg hc] at h
    exact List.mem_cons.mp h

theorem mem_mkdirp_self (fs : FS) (p : String) : p ∈ (fs.mkdirp p).dirs := by
  unfold FS.mkdirp
  by_cases hc : fs.dirs.contains p
  · rw [if_pos hc]
    exact List.elem_iff.mp hc
  · rw [if_neg hc]
    exact List.mem_cons_self _ _

theorem mkdirp_counter (fs : FS) (p : String) :
    (fs.mkdirp p).tmpCounter = fs.tmpCounter := by
  unfold FS.mkdirp
  by_cases h : fs.dirs.contains p
  · rw [if_pos h]
  · rw [if_neg h]

theorem gtf_counter (fs : FS) (render : Except String String) :
    (generate_to_tempfile fs render).1.tmpCounter = fs.tmpCounter + 1 := by
  cases render <;> rfl

theorem gtf_fst_read (fs : FS) (render : Except String String) {p : String}
    (h : ¬ p = tmp_name fs.tmpCounter) :
    (generate_to_tempfile fs render).1.read p = fs.read p := by
  cases render with
  | ok text =>
    have h0 : (generate_to_tempfile fs (.ok text)).1
        = (fs.mktemp.1).write (tmp_name fs.tmpCounter) text := rfl
    rw [h0, fs_read_write_ne _ _ h, fs_read_mktemp_ne _ h]
  | error e =>
    have h0 : (generate_to_tempfile fs (.error e)).1
        = (fs.mktemp.1).write (tmp_name fs.tmpCounter) e := rfl
    rw [h0, fs_read_write_ne _ _ h, fs_read_mktemp_ne _ h]

/-- C1 counterexample: with an empty specifier list the invocation does
fail with `TaskError("No targets specified.")`, but NOT before directory
creation — the unique working directory under
`<buildroot>/.idea/IdeaPluginGen` is already created by `__init__`
(`safe_mkdir` + `temporary_dir`), before `console_output` performs the
empty-target check. -/
theorem c1_counterexample :
    (run_invocation env0e fs0).2.2
      = .error (.taskError "No targets specified.")
  ∧ (gen_paths env0e).gen_project_workdir ∈ (run_invocation env0e fs0).1.dirs := by
  constructor
  · rfl
  · decide

/-- C1 (amended): with an empty specifier list the invocation fails with
`TaskError("No targets specified.")`; the failure happens before the
`out` subdirectory is created and before any file is written, but the
working directory (and its parent output directory) is created during
task initialization even for the failed invocation. -/
theorem c1_amended_no_targets (env : Env) (fs : FS)
    (hempty : env.positional_args = [])
    (hw : startsWithChar '/' env.workdir_name = false)
    (hout : ¬ (gen_paths env).intellij_output_dir ∈ fs.dirs) :
    (run_invocation env fs).2.2
        = .error (.taskError "No targets specified.")
  ∧ (run_invocation env fs).1.files = fs.files
  ∧ (gen_paths env).gen_project_workdir ∈ (run_invocation env fs).1.dirs
  ∧ ¬ (gen_paths env).intellij_output_dir ∈ (run_invocation env fs).1.dirs := by
  have hrun : run_invocation env fs
      = (init_fs env fs, [], .error (.taskError "No targets specified.")) := by
    unfold run_invocation console_output
    rw [if_pos hempty]
  rw [hrun]
  have e1 : (gen_paths env).gen_project_workdir
      = os_path_join (gen_paths env).output_dir env.workdir_name := rfl
  have e2 : (gen_paths env).intellij_output_dir
      = os_path_join (gen_paths env).gen_project_workdir "out" := rfl
  have l1 : (gen_paths env).output_dir.length + env.workdir_name.length
      ≤ (gen_paths env).gen_project_workdir.length := by
    rw [e1]
    exact os_path_join_length_ge _ hw
  have l2 : (gen_paths env).gen_project_workdir.length + 3
      ≤ (gen_paths env).intellij_output_dir.length := by
    rw [e2]
    have h3 : ("out" : String).length = 3 := rfl
    have := os_path_join_length_ge (gen_paths env).gen_project_workdir
      (by decide : startsWithChar '/' "out" = false)
    omega
  refine ⟨rfl, ?_, ?_, ?_⟩
  · show (init_fs env fs).files = fs.files
    unfold init_fs
    rw [fs_mkdirp_files, fs_mkdirp_files]
  · exact mem_mkdirp_self _ _
  · intro hmem
    rcases mem_mkdirp _ _ _ hmem with h | h
    · rw [h] at l2
      omega
    · rcases mem_mkdirp _ _ _ h with h2 | h2
      · rw [h2] at l2
        omega
      · exact hout h2

/-- Witness for C1 (amended) at the empty-specifier sample environment. -/
theorem c1_witness :
    (run_invocation env0e fs0).2.2
        = .error (.taskError "No targets specified.")
  ∧ (run_invocation env0e fs0).1.files = fs0.files
  ∧ (gen_paths env0e).gen_project_workdir ∈ (run_invocation env0e fs0).1.dirs
  ∧ ¬ (gen_paths env0e).intellij_output_dir
        ∈ (run_invocation env0e fs0).1.dirs :=
  c1_amended_no_targets env0e fs0 rfl (by decide) (by decide)

/-- C9: with a non-empty specifier list, if the resolved python-style
targets outnumber the JVM-style targets the advisory warning is logged,
and in every case the generation outcome (filesystem and result) is
exactly that of `generate_project` — the warning never blocks
generation. -/
theorem c9_python_heuristic_warning (env : Env) (paths : GenPaths) (fs : FS)
    (hne : ¬ env.positional_args = []) :
    (jvm_target_num env.target_roots < python_target_num env.target_roots →
      python_warning ∈ (console_output env paths fs).2.1)
  ∧ (console_output env paths fs).1 = (generate_project env paths fs).1
  ∧ (console_output env paths fs).2.2 = (generate_project env paths fs).2 := by
  unfold console_output
  rw [if_neg hne]
  refine ⟨?_, rfl, rfl⟩
  intro hlt
  show python_warning ∈
    (if jvm_target_num env.target_roots < python_target_num env.target_roots
     then [python_warning] else [])
  rw [if_pos hlt]
  exact List.mem_cons_self _ _

/-- Witness for C9 at the sample environment (two python targets, one JVM
target). -/
theorem c9_witness :
    (jvm_target_num env0.target_roots < python_target_num env0.target_roots →
      python_warning ∈ (console_output env0 (gen_paths env0) fs0).2.1)
  ∧ (console_output env0 (gen_paths env0) fs0).1
      = (generate_project env0 (gen_paths env0) fs0).1
  ∧ (console_output env0 (gen_paths env0) fs0).2.2
      = (generate_project env0 (gen_paths env0) fs0).2 :=
  c9_python_heuristic_warning env0 (gen_paths env0) fs0 (by decide)

/-- C10: all three renders happen before any move; hence if any render
fails, `generate_project` returns an error and no path other than the
three temporary names (in particular none of the three final paths) is
created or modified. -/
theorem c10_render_failure_frame (env : Env) (paths : GenPaths) (fs : FS)
    (h : (∃ e, env.render_ipr = Except.error e)
        ∨ (∃ e, env.render_iws = Except.error e)
        ∨ (∃ e, env.render_iml = Except.error e)) :
    (∃ err, (generate_project env paths fs).2 = .error err)
  ∧ ∀ p, ¬ p = tmp_name fs.tmpCounter →
      ¬ p = tmp_name (fs.tmpCounter + 1) →
      ¬ p = tmp_name (fs.tmpCounter + 2) →
      (generate_project env paths fs).1.read p = fs.read p := by
  cases hcw : configured_workspace env with
  | none =>
    have hres : generate_project env paths fs
        = (fs.mkdirp (os_path_abspath env.cwd paths.intellij_output_dir),
           Except.error TaskErr.indexError) := by
      unfold generate_project
      rw [hcw]
    rw [hres]
    exact ⟨⟨_, rfl⟩, fun p _ _ _ => fs_mkdirp_read _ _ _⟩
  | some ws =>
    have hcB : (((fs.mkdirp
          (os_path_abspath env.cwd paths.intellij_output_dir)).mkdirp
          (os_path_abspath env.cwd paths.intellij_output_dir))).tmpCounter
        = fs.tmpCounter := by
      rw [mkdirp_counter, mkdirp_counter]
    have hrd0 : ∀ p, (((fs.mkdirp
          (os_path_abspath env.cwd paths.intellij_output_dir)).mkdirp
          (os_path_abspath env.cwd paths.intellij_output_dir))).read p
        = fs.read p := by
      intro p
      rw [fs_mkdirp_read, fs_mkdirp_read]
    cases hr1 : env.render_ipr with
    | error e1 =>
      have hres : generate_project env paths fs
          = ((generate_to_tempfile
                ((fs.mkdirp
                  (os_path_abspath env.cwd paths.intellij_output_dir)).mkdirp
                  (os_path_abspath env.cwd paths.intellij_output_dir))
                (Except.error e1)).1,
             Except.error (TaskErr.renderFailure e1)) := by
        unfold generate_project
        rw [hcw, hr1]
        rfl
      rw [hres]
      refine ⟨⟨_, rfl⟩, ?_⟩
      intro p h1 _ _
      rw [gtf_fst_read _ _ (by rw [hcB]; exact h1), hrd0]
    | ok text1 =>
      cases hr2 : env.render_iws with
      | error e2 =>
        have hres : generate_project env paths fs
            = ((generate_to_tempfile
                  (generate_to_tempfile
                    ((fs.mkdirp
                      (os_path_abspath env.cwd
                        paths.intellij_output_dir)).mkdirp
                      (os_path_abspath env.cwd paths.intellij_output_dir))
                    (Except.ok text1)).1
                  (Except.error e2)).1,
               Except.error (TaskErr.renderFailure e2)) := by
          unfold generate_project
          rw [hcw, hr1, hr2]
          rfl
        rw [hres]
        refine ⟨⟨_, rfl⟩, ?_⟩
        intro p h1 h2 _
        rw [gtf_fst_read _ _ (by rw [gtf_counter, hcB]; exact h2),
          gtf_fst_read _ _ (by rw [hcB]; exact h1), hrd0]
      | ok text2 =>
        cases hr3 : env.render_iml with
        | error e3 =>
          have hres : generate_project env paths fs
              = ((generate_to_tempfile
                    (generate_to_tempfile
                      (generate_to_tempfile
                        ((fs.mkdirp
                          (os_path_abspath env.cwd
                            paths.intellij_output_dir)).mkdirp
                          (os_path_abspath env.cwd
                            paths.intellij_output_dir))
                        (Except.ok text1)).1
                      (Except.ok text2)).1
                    (Except.error e3)).1,
                 Except.error (TaskErr.renderFailure e3)) := by
            unfold generate_project
            rw [hcw, hr1, hr2, hr3]
            rfl
          rw [hres]
          refine ⟨⟨_, rfl⟩, ?_⟩
          intro p h1 h2 h3
          rw [gtf_fst_read _ _
              (by rw [gtf_counter, gtf_counter, hcB]; exact h3),
            gtf_fst_read _ _ (by rw [gtf_counter, hcB]; exact h2),
            gtf_fst_read _ _ (by rw [hcB]; exact h1), hrd0]
        | ok text3 =>
          rcases h with ⟨e, he⟩ | ⟨e, he⟩ | ⟨e, he⟩
          · rw [hr1] at he
            cases he
          · rw [hr2] at he
            cases he
          · rw [hr3] at he
            cases he

/-- Witness for C10: the workspace render fails in the sample environment,
so the run errors and a distinct path keeps its prior (absent) content. -/
theorem c10_witness :
    (∃ err, (generate_project env0f (gen_paths env0f) fs0).2
        = Except.error err)
  ∧ (generate_project env0f (gen_paths env0f) fs0).1.read "/repo/x"
      = fs0.read "/repo/x" :=
  ⟨(c10_render_failure_frame env0f (gen_paths env0f) fs0
      (Or.inr (Or.inl ⟨"BOOM", rfl⟩))).1,
   (c10_render_failure_frame env0f (gen_paths env0f) fs0
      (Or.inr (Or.inl ⟨"BOOM", rfl⟩))).2 "/repo/x"
     (by decide) (by decide) (by decide)⟩
